import Mathlib

/-!
Verification of the eSewa payment-callback reconciliation workflow of the
Mahalaxmi tours-and-travels backend.

The Python sources are shallowly embedded as executable Lean definitions:

* `Backend/system/url_utils.py`        → `fix_esewa_callback_url`
* `Backend/system/esewa_utils.py`      → `generate_signature`,
  `create_payment_request`, `decode_payment_response`
* `Backend/system/esewa_v2_views.py`   → `runUpToVerification`,
  `postVerification`, `commitBody`, `viewGet`
* `Backend/system/nested_booking_serializers.py`
                                       → `nested_booking_validate`, `encodeIntent`
* `Backend/system/models.py`           → `Traveler`, `Ticket`, `Payment`, `Store`

External collaborators (Python standard library and Django) are modelled as
explicit parameters: base64/utf-8 decoding and the HMAC-SHA256 digest are
abstract functions, the remote verification HTTP call is an oracle in `Env`,
and `django.db.transaction.atomic` is rendered by returning the pre-commit
store whenever the commit body fails (Django's documented rollback semantics).
-/

/- ---------------------------------------------------------------------
   Python string helpers shared by the embeddings.
   --------------------------------------------------------------------- -/

/-- Number of occurrences of the character c in the character list, modelling
Python `s.count(c)` for a single-character needle. -/
def countChar (l : List Char) (c : Char) : Nat :=
  l.countP (fun d => d = c)

/-- Count of question marks (`url.count('?')` in `url_utils.py`). -/
def countQ (l : List Char) : Nat := countChar l '?'

/-- Python `s.find(c)`: index of the first occurrence of c, or `none`
(Python returns -1). -/
def pyFind : List Char → Char → Option Nat
  | [], _ => none
  | c :: cs, t => if c = t then some 0 else (pyFind cs t).map (fun i => i + 1)

/-- Replace the character at index i by c, modelling the Python slice splice
`url[:i] + '&' + url[i+1:]`. -/
def replaceAt (l : List Char) (i : Nat) (c : Char) : List Char :=
  l.take i ++ c :: l.drop (i + 1)

/-- Python `s.split(sep)` for a single-character separator: always returns at
least one (possibly empty) piece, e.g. `''.split('&') == ['']`. -/
def splitChar : List Char → Char → List (List Char)
  | [], _ => [[]]
  | c :: cs, sep =>
    let r := splitChar cs sep
    if c = sep then [] :: r
    else
      match r with
      | [] => [[c]]
      | h :: t => (c :: h) :: t

/-- Python whitespace for `str.strip()`. -/
def pyIsSpace (c : Char) : Bool :=
  c = ' ' || c = '\t' || c = '\n' || c = '\r' || c = '\x0b' || c = '\x0c'

/-- Python `str.strip()`. -/
def pyStrip (s : String) : String :=
  String.mk (((s.data.dropWhile pyIsSpace).reverse.dropWhile pyIsSpace).reverse)

/-- Python `str.lower()` (ASCII suffices for the flags compared here). -/
def pyLower (s : String) : String :=
  String.mk (s.data.map Char.toLower)

/-- Python `str.startswith(pre)`. -/
def pyStartsWith (s pre : String) : Bool :=
  pre.data.isPrefixOf s.data

/-- Value of a nonempty all-digit character list (`none` otherwise). -/
def digitsVal : List Char → Option Nat
  | [] => none
  | l =>
    if l.all Char.isDigit then
      some (l.foldl (fun acc c => acc * 10 + (c.toNat - '0'.toNat)) 0)
    else none

/-- Value of a possibly-empty all-digit list, empty meaning 0 (used for the
integer part of a float literal such as ".5"). -/
def digitsValD : List Char → Option Nat
  | [] => some 0
  | l => digitsVal l

/-- Python `int(s)` on a plain decimal literal: optional surrounding
whitespace, optional sign, then digits.  `none` models the `ValueError`. -/
def pyInt? (s : String) : Option Int :=
  match (pyStrip s).data with
  | '-' :: rest => (digitsVal rest).map (fun n => -(n : Int))
  | '+' :: rest => (digitsVal rest).map (fun n => (n : Int))
  | l => (digitsVal l).map (fun n => (n : Int))

/-- Python `int(float(s))` on a plain decimal literal (optional sign, digits,
optional fractional part): `float` parses, `int` truncates toward zero, so the
result is the signed integer part.  `none` models the `ValueError`. -/
def pyIntOfFloat? (s : String) : Option Int :=
  match (pyStrip s).data with
  | '-' :: rest =>
    (match splitChar rest '.' with
     | [ip] => digitsVal ip
     | [ip, fp] =>
       if (ip.all Char.isDigit && fp.all Char.isDigit) && !(ip = [] && fp = []) then
         digitsValD ip
       else none
     | _ => none).map (fun n => -(n : Int))
  | l0 =>
    let l := match l0 with
             | '+' :: rest => rest
             | l => l
    (match splitChar l '.' with
     | [ip] => digitsVal ip
     | [ip, fp] =>
       if (ip.all Char.isDigit && fp.all Char.isDigit) && !(ip = [] && fp = []) then
         digitsValD ip
       else none
     | _ => none).map (fun n => (n : Int))

/-- Join a list of strings with `", "`, modelling Python `', '.join(l)`. -/
def commaJoin : List String → String
  | [] => ""
  | [s] => s
  | s :: rest => s ++ ", " ++ commaJoin rest

/- ---------------------------------------------------------------------
   Python dict / QueryDict helpers.

   `dictInsert` has Python dict assignment semantics: a repeated key
   overwrites the earlier value in place.  Lookup therefore finds the
   unique binding.
   --------------------------------------------------------------------- -/

def dictInsert (d : List (String × String)) (k v : String) : List (String × String) :=
  if d.any (fun p => p.1 = k) then
    d.map (fun p => if p.1 = k then (k, v) else p)
  else d ++ [(k, v)]

/-- Python `d.get(k)`: `none` when the key is absent. -/
def dictGet? (d : List (String × String)) (k : String) : Option String :=
  (d.find? (fun p => p.1 = k)).map Prod.snd

/-- Python `d.get(k, default)`. -/
def dictGetD (d : List (String × String)) (k dflt : String) : String :=
  match dictGet? d k with
  | some v => v
  | none => dflt

/-- `request.GET.get(k, '')` on the parsed query parameters. -/
def getParam (ps : List (String × String)) (k : String) : String :=
  dictGetD ps k ""

/-- `request.GET.get(k)` (default `None`). -/
def getParam? (ps : List (String × String)) (k : String) : Option String :=
  dictGet? ps k

/-- Python `a or b` for an optional string `a`: `None` and `''` are falsy. -/
def pyOrStr (a : Option String) (b : String) : String :=
  match a with
  | some s => if s = "" then b else s
  | none => b

/- ---------------------------------------------------------------------
   url_utils.fix_esewa_callback_url
   --------------------------------------------------------------------- -/

/-- Core of `fix_esewa_callback_url` on the character list of the URL,
mirroring the Python control flow: if the URL holds at most one question
mark it is returned unchanged; otherwise the second question mark (the
first one after the first) is replaced by an ampersand, recursing while
more than two question marks remain.  The `none` branch of the second
`find` is the unreachable safety check of the source. -/
def fixChars (l : List Char) : List Char :=
  if countQ l ≤ 1 then l
  else
    match pyFind l '?' with
    | none => l
    | some i =>
      match h2 : pyFind (l.drop (i + 1)) '?' with
      | none => l
      | some j =>
        let fixed := replaceAt l (i + 1 + j) '&'
        if 2 < countQ l then fixChars fixed else fixed
termination_by countQ l
decreasing_by
  simp only [replaceAt]
  -- the splice replaces a question mark, so the question-mark count drops by one
  have pf : ∀ (t : List Char) (n : Nat), pyFind t '?' = some n → t.get? n = some '?' := by
    intro t
    induction t with
    | nil => intro n hn; simp [pyFind] at hn
    | cons c cs ih =>
      intro n hn
      by_cases hc : c = '?'
      · subst hc
        simp [pyFind] at hn
        subst hn
        rfl
      · simp [pyFind, hc] at hn
        obtain ⟨m, hm, hmn⟩ := hn
        subst hmn
        simpa using ih m hm
  have hdropget : ∀ (u : List Char) (a b : Nat), (u.drop a).get? b = u.get? (a + b) := by
    intro u
    induction u with
    | nil => intro a b; simp
    | cons c cs ih =>
      intro a b
      cases a with
      | zero => simp
      | succ a0 => simpa [Nat.succ_add] using ih a0 b
  have hq : l.get? (i + 1 + j) = some '?' := by
    have := pf _ _ h2
    rwa [hdropget] at this
  have hlen : i + 1 + j < l.length := (List.get?_eq_some.mp hq).1
  have hval : l[i + 1 + j] = '?' := by
    rw [List.get?_eq_getElem?] at hq
    rw [List.getElem?_eq_getElem hlen] at hq
    exact Option.some.inj hq
  have hdropcons : l.drop (i + 1 + j) = '?' :: l.drop (i + 1 + j + 1) := by
    rw [List.drop_eq_getElem_cons hlen, hval]
  have hsplit : countQ l = countQ (l.take (i + 1 + j)) + (1 + countQ (l.drop (i + 1 + j + 1))) := by
    conv_lhs => rw [← List.take_append_drop (i + 1 + j) l]
    rw [hdropcons]
    simp [countQ, countChar, List.countP_append, List.countP_cons]
    omega
  have hnew : countQ (l.take (i + 1 + j) ++ '&' :: l.drop (i + 1 + j + 1))
      = countQ (l.take (i + 1 + j)) + countQ (l.drop (i + 1 + j + 1)) := by
    simp [countQ, countChar, List.countP_append, List.countP_cons]
  omega

/-- `fix_esewa_callback_url(url)`: `None` (and the empty string) are returned
unchanged; otherwise the character-level fix is applied. -/
def fix_esewa_callback_url (url : Option String) : Option String :=
  match url with
  | none => none
  | some s => if s = "" then some s else some (String.mk (fixChars s.data))

/-- Specification normal form for the URL normalizer, written from the spec
sentence: leave the first question mark untouched and replace every
subsequent question mark by an ampersand. -/
def replQ (l : List Char) : List Char :=
  l.map (fun c => if c = '?' then '&' else c)

/-- Specification normal form: identity up to the first question mark, then
the first question mark, then the tail with every question mark replaced. -/
def qfix : List Char → List Char
  | [] => []
  | c :: cs => if c = '?' then c :: replQ cs else c :: qfix cs

/- ---------------------------------------------------------------------
   esewa_utils.EsewaPayment
   --------------------------------------------------------------------- -/

/-- Standard base64 alphabet, modelling Python `base64.b64encode`. -/
def b64Alphabet : List Char :=
  "ABCDEFGHIJKLMNOPQRSTUVWXYZabcdefghijklmnopqrstuvwxyz0123456789+/".data

/-- Character of a 6-bit value in the base64 alphabet. -/
def b64CharOf (n : Nat) : Char :=
  b64Alphabet.getD n 'A'

/-- Base64 encoding of a byte list (`base64.b64encode(...).decode('utf-8')`). -/
def base64Encode : List Nat → String
  | [] => ""
  | [a] =>
    String.mk [b64CharOf (a / 4), b64CharOf (a % 4 * 16), '=', '=']
  | [a, b] =>
    String.mk [b64CharOf (a / 4), b64CharOf (a % 4 * 16 + b / 16),
               b64CharOf (b % 16 * 4), '=']
  | a :: b :: c :: rest =>
    String.mk [b64CharOf (a / 4), b64CharOf (a % 4 * 16 + b / 16),
               b64CharOf (b % 16 * 4 + c / 64), b64CharOf (c % 64)]
      ++ base64Encode rest

/-- Gateway credentials read from Django settings in `EsewaPayment.__init__`
(`ESEWA_MERCHANT_ID`, `ESEWA_SECRET_KEY`), injected here as explicit
configuration. -/
structure EsewaConfig where
  merchant_id : String
  secret_key : String

/-- `EsewaPayment.generate_signature`: HMAC-SHA256 of the message under the
configured secret key, base64-encoded.  The `hmacSha256` parameter models
`hmac.new(secret.encode(), message.encode(), hashlib.sha256).digest()`
(Python standard library, an external collaborator): it maps the secret key
and the message to the digest bytes. -/
def generate_signature (hmacSha256 : String → String → List Nat)
    (cfg : EsewaConfig) (message : String) : String :=
  base64Encode (hmacSha256 cfg.secret_key message)

/-- The dict returned by `EsewaPayment.create_payment_request` (field names
exactly as in the source). -/
structure PaymentRequestData where
  amount : String
  tax_amount : String
  total_amount : String
  transaction_uuid : String
  product_code : String
  product_service_charge : String
  product_delivery_charge : String
  success_url : String
  failure_url : String
  signed_field_names : String
  signature : String
deriving DecidableEq, Repr

/-- `EsewaPayment.create_payment_request`.  Amounts are taken as integers
(`int(float(x))` is the identity on the integral amounts every caller
passes); `fresh_uuid` stands for the `uuid.uuid4()` drawn when no
`transaction_uuid` is supplied.  `ValueError` becomes `Except.error`.
Note the source reaction to a total mismatch: it prints a warning and
overwrites `total_amount_int` with the calculated total instead of
raising, so the final arithmetic re-check (`int(amount_str) + ... !=
int(total_amount_str)`, with `int(str(x)) = x`) can never fire. -/
def create_payment_request (cfg : EsewaConfig)
    (hmacSha256 : String → String → List Nat)
    (amount : Int) ( product_code : String) (total_amount : Int)
    (success_url failure_url : String)
    (transaction_uuid : Option String) (fresh_uuid : String) :
    Except String PaymentRequestData :=
  let txu := match transaction_uuid with
             | none => fresh_uuid
             | some u => u
  let amount_int : Int := amount
  let total_amount_int : Int := total_amount
  let tax_amount := "0"
  let product_service_charge := "0"
  let product_delivery_charge := "0"
  let calculated_total := amount_int + 0 + 0 + 0
  let total_amount_int := if calculated_total ≠ total_amount_int then calculated_total
                          else total_amount_int
  let amount_str := toString amount_int
  let total_amount_str := toString total_amount_int
  let actual_product_code := cfg.merchant_id
  let signature_message := "total_amount=" ++ total_amount_str ++ ",transaction_uuid="
                             ++ txu ++ ",product_code=" ++ actual_product_code
  let signature := generate_signature hmacSha256 cfg signature_message
  if success_url = "" || !(pyStartsWith success_url "http") then
    Except.error ("Invalid success_url: must start with http/https. Got: " ++ success_url)
  else if failure_url = "" || !(pyStartsWith failure_url "http") then
    Except.error ("Invalid failure_url: must start with http/https. Got: " ++ failure_url)
  else
    let signed_field_names := "total_amount,transaction_uuid,product_code"
    let payment_data : PaymentRequestData :=
      { amount := amount_str
        tax_amount := tax_amount
        total_amount := total_amount_str
        transaction_uuid := txu
        product_code := actual_product_code
        product_service_charge := product_service_charge
        product_delivery_charge := product_delivery_charge
        success_url := success_url
        failure_url := failure_url
        signed_field_names := signed_field_names
        signature := signature }
    let empty_fields :=
      (([("amount", amount_str), ("tax_amount", tax_amount),
         ("total_amount", total_amount_str), ("transaction_uuid", txu),
         ("product_code", actual_product_code),
         ("product_service_charge", product_service_charge),
         ("product_delivery_charge", product_delivery_charge),
         ("success_url", success_url), ("failure_url", failure_url),
         ("signature", signature), ("signed_field_names", signed_field_names)]
        |>.filter (fun p => pyStrip p.2 = "")).map Prod.fst)
    if empty_fields ≠ [] then
      Except.error ("Empty required fields: " ++ commaJoin empty_fields)
    else if amount_int + 0 + 0 + 0 ≠ total_amount_int then
      Except.error "Invalid total_amount calculation!"
    else
      Except.ok payment_data

/-- `EsewaPayment.decode_payment_response`: the base64 decode followed by the
utf-8 decode is the Python standard library (parameter `b64decode_utf8`, an
`Except` capturing the exceptions the source catches); the query-string split
into a dict is repository code and is embedded concretely.  On failure the
source returns a dict with `error` and `message` keys. -/
def decode_payment_response (b64decode_utf8 : String → Except String String)
    (encoded_response : String) : List (String × String) :=
  match b64decode_utf8 encoded_response with
  | Except.error e => [("error", e), ("message", "Failed to decode eSewa response")]
  | Except.ok s =>
    (splitChar s.data '&').foldl
      (fun d part =>
        match pyFind part '=' with
        | none => d
        | some i => dictInsert d (String.mk (part.take i)) (String.mk (part.drop (i + 1))))
      []

/- ---------------------------------------------------------------------
   system/models.py and the persistent store
   --------------------------------------------------------------------- -/

/-- `Traveler` model (auto primary key, name, email, phone_number, address). -/
structure Traveler where
  traveler_id : Nat
  name : String
  email : String
  phone_number : String
  address : String
deriving DecidableEq, Repr

/-- `toures.models.Package` restricted to the fields this workflow reads. -/
structure Package where
  id : Nat
  title : String
  price : Int
deriving DecidableEq, Repr

/-- `Ticket` model: links one traveler to one package by foreign key. -/
structure Ticket where
  ticket_id : Nat
  package_id : Nat
  traveler_id : Nat
deriving DecidableEq, Repr

/-- Result of the remote verification step: either the JSON dict returned by
the eSewa status endpoint, or the synthetic dict the view builds when
`skip_verification=true` (whose `status` key is the literal `COMPLETE`). -/
inductive VerifResult where
  | jsonResult (fields : List (String × String))
  | skipped (transaction_code total_amount : Option String)
deriving DecidableEq, Repr

/-- `verification_result.get('status')`. -/
def statusOf : VerifResult → Option String
  | VerifResult.jsonResult fields => dictGet? fields "status"
  | VerifResult.skipped _ _ => some "COMPLETE"

/-- `Payment` model with the eSewa audit fields.  `amount` is kept as the
raw string written into the decimal field; the opaque
`esewa_raw_response` JSON blob is modelled structurally by its three
components (decoded data, verification response, query params). -/
structure Payment where
  payment_id : Nat
  amount : String
  traveler_id : Nat
  ticket_id : Nat
  package_id : Nat
  esewa_transaction_uuid : Option String
  esewa_transaction_code : Option String
  esewa_status : Option String
  esewa_signature : Option String
  raw_decoded_data : List (String × String)
  raw_verification_response : VerifResult
  raw_query_params : List (String × String)
  payment_method : String
deriving DecidableEq, Repr

/-- The persistent store: the Django tables in primary-key order plus the
auto-increment counters. -/
structure Store where
  travelers : List Traveler
  packages : List Package
  tickets : List Ticket
  payments : List Payment
  nextTravelerId : Nat
  nextTicketId : Nat
  nextPaymentId : Nat
deriving DecidableEq, Repr

/- ---------------------------------------------------------------------
   esewa_v2_views.EsewaV2VerifyAndBookView.get
   --------------------------------------------------------------------- -/

/-- Outcome of the remote `requests.post` to the verification endpoint:
a raised `RequestException`, or an HTTP response with a status code and a
body that either parses as JSON (a flat dict here) or does not. -/
inductive VerifyHttpResult where
  | exception (message : String)
  | response (status_code : Nat) (body : Except String (List (String × String)))

/-- The environment of one callback execution: gateway configuration, the
Python standard-library base64+utf-8 decoder, the remote verification
endpoint (a function of the posted payload), and failure oracles for the
three database writes (Django raises on a failed create). -/
structure Env where
  cfg : EsewaConfig
  b64decode : String → Except String String
  post : List (String × Option String) → VerifyHttpResult
  travelerCreateFails : Bool
  ticketCreateFails : Bool
  paymentCreateFails : Bool

/-- The distinct responses of `EsewaV2VerifyAndBookView.get`, one constructor
per `return Response(...)` / redirect of the source (plus `uncaughtError`
for the unguarded `int(float(...))` of step 7, which Python would raise
past the view). -/
inductive ViewResult where
  | missingData
  | decodeError (details : String)
  | verificationNotFound
  | verificationInvalidResponse (status_code : Nat)
  | verificationRequestFailed (details : String)
  | statusError (transaction_status : Option String)
  | amountMismatch (expected received : Int)
  | uncaughtError
  | missingFieldsError (missing_fields : List String)
  | travelerNotFound (traveler_id : String)
  | valueError (details : String)
  | unexpectedError
  | success (ticket_id payment_id traveler_id : Nat)
deriving DecidableEq, Repr

/-- Step 8 of the view: the `missing_fields` list, appended in source order. -/
def missingBookingFields (traveler_name traveler_email traveler_phone
    traveler_address package_id payment_amount : String) : List String :=
  (if traveler_name = "" then ["traveler_name"] else [])
  ++ (if traveler_email = "" then ["traveler_email"] else [])
  ++ (if traveler_phone = "" then ["traveler_phone"] else [])
  ++ (if traveler_address = "" then ["traveler_address"] else [])
  ++ (if package_id = "" then ["package_id"] else [])
  ++ (if payment_amount = "" then ["payment_amount"] else [])

/-- Exceptions that can escape the commit block of step 9:
`Traveler.DoesNotExist` (re-raised at line 309), `ValueError` (bad int
literal, or the package-not-found re-raise), and any other database
exception from a failed create. -/
inductive CommitErr where
  | doesNotExist (traveler_id : String)
  | valueErr (details : String)
  | dbErr
deriving DecidableEq, Repr

/-- Steps 1-5 of the view: parameter extraction, decode of the base64 `data`
payload, and the verification call (or its `skip_verification` bypass).
Returns the decoded dict and the verification result, or the rejection
response; the boolean records whether `requests.post` was actually
invoked. -/
def runUpToVerification (env : Env) (req : List (String × String)) :
    Except ViewResult (List (String × String) × VerifResult) × Bool :=
  match getParam? req "data" with
  | none => (Except.error ViewResult.missingData, false)
  | some encoded_data =>
    if encoded_data = "" then (Except.error ViewResult.missingData, false)
    else
      let decoded_data := decode_payment_response env.b64decode encoded_data
      if decoded_data.any (fun p => p.1 = "error") then
        (Except.error (ViewResult.decodeError
          (dictGetD decoded_data "message" "Failed to decode eSewa response")), false)
      else
        let transaction_code := dictGet? decoded_data "transaction_code"
        let transaction_uuid := dictGet? decoded_data "transaction_uuid"
        let total_amount := dictGet? decoded_data "total_amount"
        let product_code := dictGet? decoded_data "product_code"
        let esewa_signature := dictGet? decoded_data "signature"
        let skip_verification := pyLower (getParam req "skip_verification") = "true"
        if skip_verification then
          (Except.ok (decoded_data, VerifResult.skipped transaction_code total_amount), false)
        else
          let verify_payload : List (String × Option String) :=
            [("product_code", some (pyOrStr product_code env.cfg.merchant_id)),
             ("transaction_uuid", transaction_uuid),
             ("total_amount", total_amount),
             ("signature", esewa_signature)]
          match env.post verify_payload with
          | VerifyHttpResult.exception e =>
            (Except.error (ViewResult.verificationRequestFailed e), true)
          | VerifyHttpResult.response status_code body =>
            if status_code = 404 then
              (Except.error ViewResult.verificationNotFound, true)
            else
              match body with
              | Except.error _ =>
                (Except.error (ViewResult.verificationInvalidResponse status_code), true)
              | Except.ok fields =>
                (Except.ok (decoded_data, VerifResult.jsonResult fields), true)

/-- Step 9 of the view: the body of the `with db_transaction.atomic()` block.
The store is threaded through the successive writes; any `Except.error`
models an exception escaping the block (and hence a full rollback). -/
def commitBody (env : Env) (st : Store)
    (traveler_id traveler_name traveler_email traveler_phone traveler_address
     package_id payment_amount : String)
    (transaction_uuid transaction_code esewa_status esewa_signature
     total_amount : Option String)
    (decoded_data : List (String × String)) (vr : VerifResult)
    (req : List (String × String)) :
    Except CommitErr (Store × Nat × Nat × Nat) := do
  -- get or create traveler
  let tr ←
    if traveler_id ≠ "" then
      match pyInt? traveler_id with
      | none =>
        Except.error (CommitErr.valueErr
          ("invalid literal for int with base 10: " ++ traveler_id))
      | some n =>
        match st.travelers.find? (fun t => (t.traveler_id : Int) = n) with
        | some t => Except.ok (t, st)
        | none => Except.error (CommitErr.doesNotExist traveler_id)
    else
      -- check if traveler exists by email or phone
      match st.travelers.find? (fun t =>
          t.email = traveler_email || t.phone_number = traveler_phone) with
      | some t => Except.ok (t, st)
      | none =>
        if env.travelerCreateFails then Except.error CommitErr.dbErr
        else
          let t : Traveler :=
            { traveler_id := st.nextTravelerId, name := traveler_name,
              email := traveler_email, phone_number := traveler_phone,
              address := traveler_address }
          Except.ok (t, { st with travelers := st.travelers ++ [t],
                                  nextTravelerId := st.nextTravelerId + 1 })
  let traveler := tr.1
  let st1 := tr.2
  -- get package (int() ValueError and DoesNotExist both re-raised as ValueError)
  let package ←
    match pyInt? package_id with
    | none =>
      Except.error (CommitErr.valueErr ("Package with ID " ++ package_id ++ " not found"))
    | some n =>
      match st1.packages.find? (fun p => (p.id : Int) = n) with
      | some p => Except.ok p
      | none =>
        Except.error (CommitErr.valueErr ("Package with ID " ++ package_id ++ " not found"))
  -- create ticket
  if env.ticketCreateFails then
    Except.error CommitErr.dbErr
  else
    let ticket : Ticket :=
      { ticket_id := st1.nextTicketId, package_id := package.id,
        traveler_id := traveler.traveler_id }
    let st2 := { st1 with tickets := st1.tickets ++ [ticket],
                          nextTicketId := st1.nextTicketId + 1 }
    -- create payment with the full audit trail
    if env.paymentCreateFails then
      Except.error CommitErr.dbErr
    else
      let payment : Payment :=
        { payment_id := st2.nextPaymentId
          amount := if payment_amount ≠ "" then payment_amount
                    else (match total_amount with
                          | some s => s
                          | none => "")
          traveler_id := traveler.traveler_id
          ticket_id := ticket.ticket_id
          package_id := package.id
          esewa_transaction_uuid := transaction_uuid
          esewa_transaction_code := transaction_code
          esewa_status := esewa_status
          esewa_signature := esewa_signature
          raw_decoded_data := decoded_data
          raw_verification_response := vr
          raw_query_params := req
          payment_method := "esewa" }
      let st3 := { st2 with payments := st2.payments ++ [payment],
                            nextPaymentId := st2.nextPaymentId + 1 }
      Except.ok (st3, ticket.ticket_id, payment.payment_id, traveler.traveler_id)

/-- Translation of the exception handlers at the bottom of the view:
`Traveler.DoesNotExist` → 404, `ValueError` → 400, anything else → 500. -/
def commitErrToResult : CommitErr → ViewResult
  | CommitErr.doesNotExist i => ViewResult.travelerNotFound i
  | CommitErr.valueErr m => ViewResult.valueError m
  | CommitErr.dbErr => ViewResult.unexpectedError

/-- Steps 6-9 of the view: the `status == 'COMPLETE'` check on the
verification result, the amount comparison, the required-field validation,
and the atomic commit.  Returns the new store and the created ids, or the
rejection response (in which case nothing was written). -/
def postVerification (env : Env) (st : Store) (req : List (String × String))
    (decoded_data : List (String × String)) (vr : VerifResult) :
    Except ViewResult (Store × Nat × Nat × Nat) :=
  let transaction_code := dictGet? decoded_data "transaction_code"
  let esewa_status := dictGet? decoded_data "status"
  let transaction_uuid := dictGet? decoded_data "transaction_uuid"
  let total_amount := dictGet? decoded_data "total_amount"
  let esewa_signature := dictGet? decoded_data "signature"
  let booking_fields :=
    (getParam req "traveler_id", getParam req "traveler_name",
     getParam req "traveler_email", getParam req "traveler_phone",
     getParam req "traveler_address", getParam req "package_id",
     getParam req "payment_amount")
  -- step 6: status must be COMPLETE on the verification result
  if statusOf vr ≠ some "COMPLETE" then
    Except.error (ViewResult.statusError (statusOf vr))
  else
    -- step 7: amount comparison (only when both amounts are truthy)
    let payment_amount := booking_fields.2.2.2.2.2.2
    let amount_check : Except ViewResult Unit :=
      if payment_amount ≠ "" && (match total_amount with
                                 | some s => decide (s ≠ "")
                                 | none => false) then
        match pyIntOfFloat? payment_amount,
              pyIntOfFloat? (match total_amount with
                             | some s => s
                             | none => "") with
        | some expected, some received =>
          if expected ≠ received then
            Except.error (ViewResult.amountMismatch expected received)
          else Except.ok ()
        | _, _ => Except.error ViewResult.uncaughtError
      else Except.ok ()
    match amount_check with
    | Except.error r => Except.error r
    | Except.ok _ =>
      -- step 8: required booking fields
      let missing := missingBookingFields booking_fields.2.1 booking_fields.2.2.1
        booking_fields.2.2.2.1 booking_fields.2.2.2.2.1 booking_fields.2.2.2.2.2.1
        payment_amount
      if missing ≠ [] then
        Except.error (ViewResult.missingFieldsError missing)
      else
        -- step 9: atomic commit
        match commitBody env st booking_fields.1 booking_fields.2.1
            booking_fields.2.2.1 booking_fields.2.2.2.1 booking_fields.2.2.2.2.1
            booking_fields.2.2.2.2.2.1 payment_amount
            transaction_uuid transaction_code esewa_status esewa_signature
            total_amount decoded_data vr req with
        | Except.error e => Except.error (commitErrToResult e)
        | Except.ok x => Except.ok x

/-- `EsewaV2VerifyAndBookView.get` on the parsed query parameters.  Returns
the response, the store after the request, and whether the remote
verification endpoint was called.  The error branches return the original
store: this is the rollback guarantee of `db_transaction.atomic()`
(partial writes inside a failed commit never survive), and before step 9
nothing has been written at all. -/
def viewGet (env : Env) (st : Store) (req : List (String × String)) :
    ViewResult × Store × Bool :=
  match runUpToVerification env req with
  | (Except.error r, called) => (r, st, called)
  | (Except.ok (decoded_data, vr), called) =>
    match postVerification env st req decoded_data vr with
    | Except.error r => (r, st, called)
    | Except.ok (st2, ticket_id, payment_id, traveler_id) =>
      (ViewResult.success ticket_id payment_id traveler_id, st2, called)

/-- Commit-stage failures: the responses produced by the exception handlers
around the atomic block of step 9. -/
def isCommitFailure : ViewResult → Bool
  | ViewResult.travelerNotFound _ => true
  | ViewResult.valueError _ => true
  | ViewResult.unexpectedError => true
  | _ => false

/-- Successful bookings. -/
def isSuccessResult : ViewResult → Bool
  | ViewResult.success _ _ _ => true
  | _ => false

/- ---------------------------------------------------------------------
   nested_booking_serializers.NestedBookingWithEsewaSerializer
   --------------------------------------------------------------------- -/

/-- The validated serializer data: `traveler_id` is an optional integer
(absent or null → `none`), the four traveler detail fields are blank-able
strings (absent and blank collapse to `""`, which is how every use site
treats them), `package_id` is a required integer, and `payment_amount` is
the required `DecimalField(max_digits=10, decimal_places=2)` value,
modelled by its exact rational value (so fractional amounts such as
1800.50 are representable). -/
structure Intent where
  booking_reference : String
  traveler_id : Option Int
  traveler_name : String
  traveler_email : String
  traveler_phone : String
  traveler_address : String
  package_id : Int
  payment_amount : Rat
deriving DecidableEq, Repr

/-- Python `int(float(q))` on the validated Decimal amount: conversion to
float (exact for amounts within the fields ten digits) followed by `int`,
which truncates toward zero — the t-division of the numerator by the
denominator. -/
def pyIntOfDecimal (q : Rat) : Int :=
  q.num.tdiv (q.den : Int)

/-- Python truthiness of the optional integer `data.get('traveler_id')`:
`None` and `0` are falsy. -/
def truthyId : Option Int → Bool
  | some n => decide (n ≠ 0)
  | none => false

/-- `NestedBookingWithEsewaSerializer.validate`, with the two database
existence checks evaluated against the store. -/
def nested_booking_validate (st : Store) (d : Intent) : Except String Intent :=
  let has_traveler_id := truthyId d.traveler_id
  let has_traveler_details :=
    decide (d.traveler_name ≠ "") && decide (d.traveler_email ≠ "")
      && decide (d.traveler_phone ≠ "") && decide (d.traveler_address ≠ "")
  if !has_traveler_id && !has_traveler_details then
    Except.error "Either provide traveler_id or all traveler details (name, email, phone, address)"
  else if has_traveler_id && has_traveler_details then
    Except.error "Provide either traveler_id or new traveler details, not both"
  else if !(st.packages.any (fun p => (p.id : Int) = d.package_id)) then
    Except.error "Package not found"
  else if has_traveler_id
      && !(st.travelers.any (fun t =>
            (t.traveler_id : Int) = (match d.traveler_id with
                                     | some n => n
                                     | none => 0))) then
    Except.error "Traveler not found"
  else
    Except.ok d

/-- The `booking_params` dict built by `initiate_esewa_payment` (lines
83-101): booking reference, package id and the truncated amount
(`str(int(float(amount)))`, dropping any fractional part) always; then
`traveler_id` when truthy, otherwise each non-empty traveler detail
field.  URL-encoding the dict into the success URL and parsing it back on
the callback is the HTTP layer and inverts on the key-value level. -/
def encodeIntent (d : Intent) : List (String × String) :=
  [("booking_reference", d.booking_reference),
   ("package_id", toString d.package_id),
   ("payment_amount", toString (pyIntOfDecimal d.payment_amount))]
  ++ (if truthyId d.traveler_id then
        [("traveler_id", toString (match d.traveler_id with
                                   | some n => n
                                   | none => 0))]
      else
        (if d.traveler_name ≠ "" then [("traveler_name", d.traveler_name)] else [])
        ++ (if d.traveler_email ≠ "" then [("traveler_email", d.traveler_email)] else [])
        ++ (if d.traveler_phone ≠ "" then [("traveler_phone", d.traveler_phone)] else [])
        ++ (if d.traveler_address ≠ "" then [("traveler_address", d.traveler_address)] else []))

/-- Step 1 of `EsewaV2VerifyAndBookView.get`: the booking parameters the
callback reads back out of the query string (`request.GET.get(k, '')`,
and `get('data')` with default `None`). -/
structure ExtractedBooking where
  data? : Option String
  booking_reference : String
  traveler_id : String
  traveler_name : String
  traveler_email : String
  traveler_phone : String
  traveler_address : String
  package_id : String
  payment_amount : String
deriving DecidableEq, Repr

/-- The extraction itself. -/
def extractBooking (ps : List (String × String)) : ExtractedBooking :=
  { data? := getParam? ps "data"
    booking_reference := getParam ps "booking_reference"
    traveler_id := getParam ps "traveler_id"
    traveler_name := getParam ps "traveler_name"
    traveler_email := getParam ps "traveler_email"
    traveler_phone := getParam ps "traveler_phone"
    traveler_address := getParam ps "traveler_address"
    package_id := getParam ps "package_id"
    payment_amount := getParam ps "payment_amount" }

/- ---------------------------------------------------------------------
   Definitions written from the spec text, for comparison with the code
   (each is named and used only to state claims, never to define the
   embedded behaviour).
   --------------------------------------------------------------------- -/

/-- Modelled from the spec: the acceptance condition the spec states for
intent decoding — an existing-traveler id is present XOR all four
new-traveler fields are present. -/
def specXorAccepts (traveler_id traveler_name traveler_email traveler_phone
    traveler_address : String) : Bool :=
  Bool.xor (decide (traveler_id ≠ ""))
    (decide (traveler_name ≠ "") && decide (traveler_email ≠ "")
      && decide (traveler_phone ≠ "") && decide (traveler_address ≠ ""))

/-- Modelled from the spec: an intent that is exactly one of the two spec
variants — existing-traveler (a nonzero id and no detail fields) or
new-traveler (no id and all four detail fields). -/
def strictVariantIntent (d : Intent) : Prop :=
  (∃ n, d.traveler_id = some n ∧ n ≠ 0 ∧ d.traveler_name = ""
     ∧ d.traveler_email = "" ∧ d.traveler_phone = "" ∧ d.traveler_address = "")
  ∨ (d.traveler_id = none ∧ d.traveler_name ≠ "" ∧ d.traveler_email ≠ ""
     ∧ d.traveler_phone ≠ "" ∧ d.traveler_address ≠ "")

/-- The decoded callback parameters recover the intent: every field of the
extraction equals the corresponding intent field (integers rendered as
their decimal numerals, an absent traveler id rendered as the empty
default, and the amount rendered as the numeral of its numerator — the
faithful rendering of an integral amount; a fractional amount can never
satisfy this, since encoding truncates it). -/
def rendersIntent (e : ExtractedBooking) (d : Intent) : Prop :=
  e.booking_reference = d.booking_reference
  ∧ e.traveler_id = (match d.traveler_id with
                     | some n => toString n
                     | none => "")
  ∧ e.traveler_name = d.traveler_name
  ∧ e.traveler_email = d.traveler_email
  ∧ e.traveler_phone = d.traveler_phone
  ∧ e.traveler_address = d.traveler_address
  ∧ e.package_id = toString d.package_id
  ∧ e.payment_amount = toString d.payment_amount.num

/- ---------------------------------------------------------------------
   Concrete fixtures used by the closed theorems below.
   --------------------------------------------------------------------- -/

/-- The default test credentials of `EsewaPayment.__init__`. -/
def cfgTest : EsewaConfig :=
  { merchant_id := "EPAYTEST", secret_key := "8gBm/:&EnhH.1/q" }

/-- A stand-in HMAC-SHA256 digest function for concrete evaluation. -/
def hmacTest : String → String → List Nat := fun _ _ => [0]

/-- A package on offer. -/
def pkg8 : Package := { id := 8, title := "Everest Base Camp", price := 1800 }

/-- A fresh store holding only that package. -/
def storeBase : Store :=
  { travelers := [], packages := [pkg8], tickets := [], payments := [],
    nextTravelerId := 1, nextTicketId := 1, nextPaymentId := 1 }

/-- Environment for the duplicate-callback scenario: the gateway payload
decodes to a COMPLETE transaction `tx-1` and the remote verification
endpoint reports COMPLETE. -/
def envC1 : Env :=
  { cfg := cfgTest
    b64decode := fun _ => Except.ok
      "transaction_code=TC1&status=COMPLETE&transaction_uuid=tx-1&total_amount=1800&product_code=EPAYTEST&signature=sg1"
    post := fun _ => VerifyHttpResult.response 200 (Except.ok [("status", "COMPLETE")])
    travelerCreateFails := false
    ticketCreateFails := false
    paymentCreateFails := false }

/-- The COMPLETE callback request for `tx-1` (no bypass flag). -/
def reqC1 : List (String × String) :=
  [("data", "QkFTRTY0"), ("booking_reference", "BK1"),
   ("traveler_name", "Ayush"), ("traveler_email", "ayush@example.com"),
   ("traveler_phone", "9861000000"), ("traveler_address", "Kathmandu"),
   ("package_id", "8"), ("payment_amount", "1800")]

/-- Store after the first delivery of the `tx-1` callback. -/
def storeC1a : Store := (viewGet envC1 storeBase reqC1).2.1

/-- Store after the second, identical delivery of the `tx-1` callback. -/
def storeC1b : Store := (viewGet envC1 storeC1a reqC1).2.1

/-- Environment for the bypass scenario: the remote verification endpoint is
unreachable (every call raises), so any successful booking can only have
skipped it. -/
def envC2 : Env :=
  { cfg := cfgTest
    b64decode := fun _ => Except.ok
      "transaction_code=TC2&status=COMPLETE&transaction_uuid=tx-2&total_amount=1800&product_code=EPAYTEST&signature=sg2"
    post := fun _ => VerifyHttpResult.exception "gateway unreachable"
    travelerCreateFails := false
    ticketCreateFails := false
    paymentCreateFails := false }

/-- The same callback with `skip_verification=true` appended. -/
def reqC2 : List (String × String) :=
  [("data", "QkFTRTY0"), ("booking_reference", "BK2"),
   ("traveler_name", "Ayush"), ("traveler_email", "ayush@example.com"),
   ("traveler_phone", "9861000000"), ("traveler_address", "Kathmandu"),
   ("package_id", "8"), ("payment_amount", "1800"),
   ("skip_verification", "true")]

/-- Environment whose decoded gateway payload carries status PENDING. -/
def envC3 : Env :=
  { cfg := cfgTest
    b64decode := fun _ => Except.ok
      "transaction_code=TC3&status=PENDING&transaction_uuid=tx-3&total_amount=1800&product_code=EPAYTEST&signature=sg3"
    post := fun _ => VerifyHttpResult.exception "gateway unreachable"
    travelerCreateFails := false
    ticketCreateFails := false
    paymentCreateFails := false }

/-- The PENDING-payload callback delivered with the bypass flag. -/
def reqC3 : List (String × String) :=
  [("data", "QkFTRTY0"), ("booking_reference", "BK3"),
   ("traveler_name", "Ayush"), ("traveler_email", "ayush@example.com"),
   ("traveler_phone", "9861000000"), ("traveler_address", "Kathmandu"),
   ("package_id", "8"), ("payment_amount", "1800"),
   ("skip_verification", "true")]

/-- Environment in which the remote verification endpoint answers with
status PENDING (decoded payload says COMPLETE). -/
def envC3w : Env :=
  { cfg := cfgTest
    b64decode := fun _ => Except.ok
      "transaction_code=TC3&status=COMPLETE&transaction_uuid=tx-3b&total_amount=1800&product_code=EPAYTEST&signature=sg3"
    post := fun _ => VerifyHttpResult.response 200 (Except.ok [("status", "PENDING")])
    travelerCreateFails := false
    ticketCreateFails := false
    paymentCreateFails := false }

/-- The callback for that environment (no bypass flag). -/
def reqC3w : List (String × String) :=
  [("data", "QkFTRTY0"), ("booking_reference", "BK3B"),
   ("traveler_name", "Ayush"), ("traveler_email", "ayush@example.com"),
   ("traveler_phone", "9861000000"), ("traveler_address", "Kathmandu"),
   ("package_id", "8"), ("payment_amount", "1800")]

/-- The dict that callback decodes to. -/
def decodedC3w : List (String × String) :=
  decode_payment_response envC3w.b64decode "QkFTRTY0"

/-- Environment in which the ticket insert fails after the traveler insert
succeeded: the commit reaches the database and dies halfway. -/
def envC4w : Env :=
  { cfg := cfgTest
    b64decode := fun _ => Except.ok
      "transaction_code=TC4&status=COMPLETE&transaction_uuid=tx-4&total_amount=1800&product_code=EPAYTEST&signature=sg4"
    post := fun _ => VerifyHttpResult.response 200 (Except.ok [("status", "COMPLETE")])
    travelerCreateFails := false
    ticketCreateFails := true
    paymentCreateFails := false }

/-- The COMPLETE callback for the half-failing commit. -/
def reqC4w : List (String × String) :=
  [("data", "QkFTRTY0"), ("booking_reference", "BK4"),
   ("traveler_name", "Ayush"), ("traveler_email", "ayush@example.com"),
   ("traveler_phone", "9861000000"), ("traveler_address", "Kathmandu"),
   ("package_id", "8"), ("payment_amount", "1800")]

/-- The payment request `create_payment_request cfgTest hmacTest 100 pc 100
"http://localhost:8000/s" "http://localhost:8000/f" (some "u5") _`
evaluates to. -/
def prC5 : PaymentRequestData :=
  { amount := "100", tax_amount := "0", total_amount := "100",
    transaction_uuid := "u5", product_code := "EPAYTEST",
    product_service_charge := "0", product_delivery_charge := "0",
    success_url := "http://localhost:8000/s",
    failure_url := "http://localhost:8000/f",
    signed_field_names := "total_amount,transaction_uuid,product_code",
    signature := "AA==" }

/-- The same request data for transaction uuid `u9`. -/
def prC9 : PaymentRequestData :=
  { prC5 with transaction_uuid := "u9" }

/-- The same request data for transaction uuid `u10`. -/
def prC10 : PaymentRequestData :=
  { prC5 with transaction_uuid := "u10" }

/-- An existing traveler with primary key 5. -/
def traveler5 : Traveler :=
  { traveler_id := 5, name := "Bob", email := "bob@example.com",
    phone_number := "9810000000", address := "Pokhara" }

/-- Store for the round-trip counterexample: traveler 5 and package 8 exist. -/
def storeC7 : Store :=
  { travelers := [traveler5], packages := [pkg8], tickets := [], payments := [],
    nextTravelerId := 6, nextTicketId := 1, nextPaymentId := 1 }

/-- A validator-accepted intent carrying both a traveler id and a non-empty
traveler name. -/
def intentC7c : Intent :=
  { booking_reference := "BK7C", traveler_id := some 5, traveler_name := "Bob",
    traveler_email := "", traveler_phone := "", traveler_address := "",
    package_id := 8, payment_amount := 1800 }

/-- A strict new-traveler intent with a whole-number amount. -/
def intentC7w : Intent :=
  { booking_reference := "BK7W", traveler_id := none, traveler_name := "Ana",
    traveler_email := "ana@example.com", traveler_phone := "9800000001",
    traveler_address := "Lalitpur", package_id := 8, payment_amount := 1800 }

/-- A strict new-traveler intent whose Decimal amount is fractional
(1800.50, the rational 3601/2 written by its reduced numerator and
denominator), as the serializer field with two decimal places allows. -/
def intentC7f : Intent :=
  { booking_reference := "BK7F", traveler_id := none, traveler_name := "Eva",
    traveler_email := "eva@example.com", traveler_phone := "9800000002",
    traveler_address := "Bhaktapur", package_id := 8,
    payment_amount := ⟨3601, 2, by decide, by decide⟩ }

/- ---------------------------------------------------------------------
   Theorems.
   --------------------------------------------------------------------- -/

/-- The store changes only when the view returns a success: every rejection
path, before or inside the atomic block, leaves the store untouched. -/
theorem viewGet_store_eq_of_not_success (env : Env) (st : Store)
    (req : List (String × String))
    (h : isSuccessResult (viewGet env st req).1 = false) :
    (viewGet env st req).2.1 = st := by
  rcases hr : runUpToVerification env req with ⟨er, called⟩
  cases er with
  | error r => simp [viewGet, hr]
  | ok dv =>
    rcases dv with ⟨decoded, vr⟩
    cases hp : postVerification env st req decoded vr with
    | error r => simp [viewGet, hr, hp]
    | ok x =>
      rcases x with ⟨st2, t, p, trv⟩
      exfalso
      have hres : (viewGet env st req).1 = ViewResult.success t p trv := by
        simp [viewGet, hr, hp]
      rw [hres] at h
      simp [isSuccessResult] at h

/-- C1: two successful deliveries of the same COMPLETE callback for
transaction `tx-1` both succeed and leave TWO payments (and two tickets)
with that transaction uuid in the store — the view has no duplicate
detection, so the claimed at-most-once invariant fails on the code. -/
theorem claim_C1_duplicate_payments :
    (viewGet envC1 storeBase reqC1).1 = ViewResult.success 1 1 1
      ∧ (viewGet envC1 storeC1a reqC1).1 = ViewResult.success 2 2 1
      ∧ storeC1b.payments.countP
          (fun p => p.esewa_transaction_uuid = some "tx-1") = 2
      ∧ storeC1b.tickets.length = 2 := by
  exact ⟨rfl, rfl, rfl, rfl⟩

/-- C2: a callback carrying `skip_verification=true` commits a booking even
though the remote verification endpoint is unreachable and is never
called (the returned flag is `false`) — the bypass is a request
parameter, available in any configuration, so the claimed
production-impossibility fails on the code. -/
theorem claim_C2_bypass_reachable :
    (viewGet envC2 storeBase reqC2).1 = ViewResult.success 1 1 1
      ∧ (viewGet envC2 storeBase reqC2).2.2 = false
      ∧ (viewGet envC2 storeBase reqC2).2.1.payments.length = 1 := by
  exact ⟨rfl, rfl, rfl⟩

/-- C3 counterexample: a callback whose DECODED payload has status PENDING
still creates a traveler, ticket and payment when the bypass flag is set,
because the view checks the verification result, not the decoded status. -/
theorem claim_C3_counterexample :
    dictGet? (decode_payment_response envC3.b64decode "QkFTRTY0") "status"
        = some "PENDING"
      ∧ (viewGet envC3 storeBase reqC3).1 = ViewResult.success 1 1 1
      ∧ (viewGet envC3 storeBase reqC3).2.1.payments.length = 1
      ∧ (viewGet envC3 storeBase reqC3).2.1.travelers.length = 1 := by
  exact ⟨rfl, rfl, rfl, rfl⟩

/-- C3 amended: when the VERIFICATION RESULT of a callback run (remote
response, or the synthetic COMPLETE dict under the bypass) has a status
different from COMPLETE, the run rejects with the status error and the
store is unchanged — the commit step is never reached. -/
theorem claim_C3_amended (env : Env) (st : Store) (req : List (String × String))
    (decoded : List (String × String)) (vr : VerifResult) (called : Bool)
    (hrun : runUpToVerification env req = (Except.ok (decoded, vr), called))
    (hst : statusOf vr ≠ some "COMPLETE") :
    (viewGet env st req).1 = ViewResult.statusError (statusOf vr)
      ∧ (viewGet env st req).2.1 = st := by
  have hpost : postVerification env st req decoded vr
      = Except.error (ViewResult.statusError (statusOf vr)) := by
    unfold postVerification
    rw [if_pos hst]
  constructor <;> simp [viewGet, hrun, hpost]

/-- Witness for C3: a remote verification answering PENDING is rejected with
a status error and writes nothing. -/
theorem claim_C3_witness :
    runUpToVerification envC3w reqC3w
        = (Except.ok (decodedC3w, VerifResult.jsonResult [("status", "PENDING")]), true)
      ∧ (viewGet envC3w storeBase reqC3w).1 = ViewResult.statusError (some "PENDING")
      ∧ (viewGet envC3w storeBase reqC3w).2.1 = storeBase := by
  have h := claim_C3_amended envC3w storeBase reqC3w decodedC3w
    (VerifResult.jsonResult [("status", "PENDING")]) true (by rfl) (by decide)
  exact ⟨by rfl, h.1, h.2⟩

/-- C4: whenever the commit step fails (traveler lookup, package lookup, or
any of the three writes raising inside the atomic block), the store after
the callback equals the store before it: no partial write survives, so
the whole callback is safe to retry. -/
theorem claim_C4_atomic_commit (env : Env) (st : Store)
    (req : List (String × String))
    (h : isCommitFailure (viewGet env st req).1 = true) :
    (viewGet env st req).2.1 = st := by
  apply viewGet_store_eq_of_not_success
  cases hres : (viewGet env st req).1 <;>
    rw [hres] at h <;>
    simp [isCommitFailure] at h <;>
    simp [isSuccessResult]

/-- Witness for C4: the ticket insert fails after the traveler insert
succeeded, the view answers with the commit-failure response, and the
store is exactly the pre-callback store (the new traveler was rolled
back). -/
theorem claim_C4_witness :
    isCommitFailure (viewGet envC4w storeBase reqC4w).1 = true
      ∧ (viewGet envC4w storeBase reqC4w).1 = ViewResult.unexpectedError
      ∧ (viewGet envC4w storeBase reqC4w).2.1 = storeBase :=
  ⟨by decide, by decide, claim_C4_atomic_commit envC4w storeBase reqC4w (by decide)⟩

/-- C5 counterexample: a call whose provided total (200) differs from
amount + tax + service + delivery (100 + 0 + 0 + 0) does NOT fail — it
returns a request whose total has been silently overwritten with the
calculated sum. -/
theorem claim_C5_counterexample :
    (match create_payment_request cfgTest hmacTest 100 "BKX" 200
        "http://localhost:8000/s" "http://localhost:8000/f" (some "u5") "fresh5" with
     | Except.ok r => some (r.amount, r.total_amount)
     | Except.error _ => none) = some ("100", "100") := rfl

/-- C5 amended: on a total mismatch the builder recovers by overwriting the
total with amount + 0 + 0 + 0 instead of failing; consequently every
returned request satisfies the arithmetic identity — its total equals its
amount and all other charge fields are zero. -/
theorem claim_C5_amended (cfg : EsewaConfig) (hm : String → String → List Nat)
    (amount : Int) (pc : String) (total : Int) (s f : String)
    (txu : Option String) (fresh : String) (r : PaymentRequestData)
    (h : create_payment_request cfg hm amount pc total s f txu fresh = Except.ok r) :
    r.total_amount = r.amount ∧ r.amount = toString amount
      ∧ r.tax_amount = "0" ∧ r.product_service_charge = "0"
      ∧ r.product_delivery_charge = "0" := by
  unfold create_payment_request at h
  by_cases hmis : (amount + 0 + 0 + 0 : Int) ≠ total
  · simp only [if_pos hmis] at h
    repeat' split at h
    all_goals cases h
    all_goals exact ⟨by simp, rfl, rfl, rfl, rfl⟩
  · simp only [if_neg hmis] at h
    have htot : total = amount + 0 + 0 + 0 := by omega
    subst htot
    repeat' split at h
    all_goals cases h
    all_goals exact ⟨by simp, rfl, rfl, rfl, rfl⟩

/-- Witness for C5: a matching call returns request data whose total equals
its amount. -/
theorem claim_C5_witness :
    create_payment_request cfgTest hmacTest 100 "BKX" 100
        "http://localhost:8000/s" "http://localhost:8000/f" (some "u5") "fresh5"
      = Except.ok prC5
      ∧ prC5.total_amount = prC5.amount := by
  have h : create_payment_request cfgTest hmacTest 100 "BKX" 100
      "http://localhost:8000/s" "http://localhost:8000/f" (some "u5") "fresh5"
      = Except.ok prC5 := rfl
  exact ⟨h, (claim_C5_amended cfgTest hmacTest 100 "BKX" 100
    "http://localhost:8000/s" "http://localhost:8000/f" (some "u5") "fresh5" prC5 h).1⟩

/-- C9: the signature of every returned payment request is the base64-encoded
HMAC-SHA256 (under the configured secret key) of exactly the ordered
message `total_amount=<T>,transaction_uuid=<U>,product_code=<P>` built
from the emitted fields; and `generate_signature` is precisely that
keyed-hash-then-base64 composition for every message. -/
theorem claim_C9_signature (cfg : EsewaConfig) (hm : String → String → List Nat)
    (amount : Int) (pc : String) (total : Int) (s f : String)
    (txu : Option String) (fresh : String) (r : PaymentRequestData)
    (h : create_payment_request cfg hm amount pc total s f txu fresh = Except.ok r) :
    r.signature = base64Encode (hm cfg.secret_key
        ("total_amount=" ++ r.total_amount ++ ",transaction_uuid="
          ++ r.transaction_uuid ++ ",product_code=" ++ r.product_code))
      ∧ (∀ m : String, generate_signature hm cfg m = base64Encode (hm cfg.secret_key m)) := by
  refine ⟨?_, fun m => rfl⟩
  unfold create_payment_request at h
  by_cases hmis : (amount + 0 + 0 + 0 : Int) ≠ total
  · simp only [if_pos hmis] at h
    repeat' split at h
    all_goals cases h
    all_goals rfl
  · simp only [if_neg hmis] at h
    repeat' split at h
    all_goals cases h
    all_goals rfl

/-- Witness for C9: the signature field of a concrete returned request equals
the base64-encoded digest of the canonical message over its own fields. -/
theorem claim_C9_witness :
    create_payment_request cfgTest hmacTest 100 "BKY" 100
        "http://localhost:8000/s" "http://localhost:8000/f" (some "u9") "fresh9"
      = Except.ok prC9
      ∧ prC9.signature = base64Encode (hmacTest cfgTest.secret_key
          ("total_amount=" ++ prC9.total_amount ++ ",transaction_uuid="
            ++ prC9.transaction_uuid ++ ",product_code=" ++ prC9.product_code)) := by
  have h : create_payment_request cfgTest hmacTest 100 "BKY" 100
      "http://localhost:8000/s" "http://localhost:8000/f" (some "u9") "fresh9"
      = Except.ok prC9 := rfl
  exact ⟨h, (claim_C9_signature cfgTest hmacTest 100 "BKY" 100
    "http://localhost:8000/s" "http://localhost:8000/f" (some "u9") "fresh9" prC9 h).1⟩

/-- C10: the product_code argument of `create_payment_request` is dead: two
calls identical except for it (same supplied transaction uuid) return
identical results, and the product code of every returned request is the
configured merchant id. -/
theorem claim_C10_product_code_ignored (cfg : EsewaConfig)
    (hm : String → String → List Nat) (amount : Int) (pc1 pc2 : String)
    (total : Int) (s f : String) (u fresh : String) :
    create_payment_request cfg hm amount pc1 total s f (some u) fresh
        = create_payment_request cfg hm amount pc2 total s f (some u) fresh
      ∧ (∀ r : PaymentRequestData,
          create_payment_request cfg hm amount pc1 total s f (some u) fresh
              = Except.ok r →
            r.product_code = cfg.merchant_id) := by
  refine ⟨rfl, fun r h => ?_⟩
  unfold create_payment_request at h
  by_cases hmis : (amount + 0 + 0 + 0 : Int) ≠ total
  · simp only [if_pos hmis] at h
    repeat' split at h
    all_goals cases h
    all_goals rfl
  · simp only [if_neg hmis] at h
    repeat' split at h
    all_goals cases h
    all_goals rfl

/-- Witness for C10: two concrete calls differing only in the product code
argument agree, and the emitted product code is the merchant id. -/
theorem claim_C10_witness :
    create_payment_request cfgTest hmacTest 100 "CODE-A" 100
        "http://localhost:8000/s" "http://localhost:8000/f" (some "u10") "fx"
      = create_payment_request cfgTest hmacTest 100 "CODE-B" 100
        "http://localhost:8000/s" "http://localhost:8000/f" (some "u10") "fx"
      ∧ prC10.product_code = cfgTest.merchant_id := by
  refine ⟨(claim_C10_product_code_ignored cfgTest hmacTest 100 "CODE-A" "CODE-B" 100
    "http://localhost:8000/s" "http://localhost:8000/f" "u10" "fx").1, ?_⟩
  exact (claim_C10_product_code_ignored cfgTest hmacTest 100 "CODE-A" "CODE-B" 100
    "http://localhost:8000/s" "http://localhost:8000/f" "u10" "fx").2 prC10 rfl

/-- C6 counterexample: the input with a traveler id and no detail fields
satisfies the claimed XOR acceptance condition, yet the callback
validation rejects it, listing all four traveler detail fields as
missing — the code requires all four fields regardless of the id. -/
theorem claim_C6_counterexample :
    specXorAccepts "7" "" "" "" "" = true
      ∧ missingBookingFields "" "" "" "" "8" "1800"
          = ["traveler_name", "traveler_email", "traveler_phone", "traveler_address"] := by
  exact ⟨rfl, rfl⟩

/-- C6 amended: the callback validation requires all four traveler detail
fields plus package id and payment amount, regardless of traveler id; a
rejection names exactly the empty fields, in the fixed source order; the
name-and-email-only scenario yields exactly phone and address. -/
theorem claim_C6_amended (traveler_name traveler_email traveler_phone
    traveler_address package_id payment_amount : String) :
    missingBookingFields traveler_name traveler_email traveler_phone
        traveler_address package_id payment_amount
      = (([("traveler_name", traveler_name), ("traveler_email", traveler_email),
           ("traveler_phone", traveler_phone), ("traveler_address", traveler_address),
           ("package_id", package_id), ("payment_amount", payment_amount)].filter
            (fun p => p.2 = "")).map Prod.fst)
    ∧ (missingBookingFields traveler_name traveler_email traveler_phone
          traveler_address package_id payment_amount = []
        ↔ (traveler_name ≠ "" ∧ traveler_email ≠ "" ∧ traveler_phone ≠ ""
            ∧ traveler_address ≠ "" ∧ package_id ≠ "" ∧ payment_amount ≠ ""))
    ∧ missingBookingFields "Ana" "ana@example.com" "" "" "8" "1800"
        = ["traveler_phone", "traveler_address"] := by
  refine ⟨?_, ?_, rfl⟩ <;>
  · by_cases h1 : traveler_name = "" <;>
      by_cases h2 : traveler_email = "" <;>
      by_cases h3 : traveler_phone = "" <;>
      by_cases h4 : traveler_address = "" <;>
      by_cases h5 : package_id = "" <;>
      by_cases h6 : payment_amount = "" <;>
      simp [missingBookingFields, h1, h2, h3, h4, h5, h6]

/-- Truncation toward zero is exact on an integral decimal. -/
theorem pyIntOfDecimal_of_den_one (q : Rat) (h : q.den = 1) :
    pyIntOfDecimal q = q.num := by
  rw [pyIntOfDecimal, h]
  simp [Int.tdiv_one]

/-- C7 counterexample: two validator-reachable failures of the round trip.
First, the mixed intent passes the serializer validation (truthy traveler
id and not all four detail fields), yet encoding drops its non-empty
traveler name.  Second, a strict new-traveler intent with the fractional
amount 1800.50 (allowed by the two-decimal-place field) is encoded as the
truncated string "1800", which denotes a different amount — so decoding
does not recover the intent in either case. -/
theorem claim_C7_counterexample :
    nested_booking_validate storeC7 intentC7c = Except.ok intentC7c
      ∧ (extractBooking (encodeIntent intentC7c)).traveler_name = ""
      ∧ intentC7c.traveler_name = "Bob"
      ∧ strictVariantIntent intentC7f
      ∧ (extractBooking (encodeIntent intentC7f)).payment_amount = "1800"
      ∧ intentC7f.payment_amount ≠ ((1800 : Rat)) := by
  exact ⟨rfl, rfl, rfl,
    Or.inr ⟨rfl, by decide, by decide, by decide, by decide⟩, rfl, by decide⟩

/-- C7 amended: the round trip holds for intents that are exactly one of the
two spec variants — existing-traveler (nonzero id, no detail fields) or
new-traveler (no id, all four detail fields) — and whose payment amount
is a whole number: decoding the encoded query parameters recovers every
field of the intent, with empty optional fields omitted on encode and
restored as empty defaults on decode.  (Mixed validator-accepted intents
lose their detail fields, and fractional amounts lose their fractional
part to the `str(int(float(amount)))` truncation.) -/
theorem claim_C7_amended (d : Intent) (h : strictVariantIntent d)
    (hden : d.payment_amount.den = 1) :
    rendersIntent (extractBooking (encodeIntent d)) d := by
  have hamount : pyIntOfDecimal d.payment_amount = d.payment_amount.num :=
    pyIntOfDecimal_of_den_one d.payment_amount hden
  rcases h with ⟨n, hid, hn0, h1, h2, h3, h4⟩ | ⟨hid, h1, h2, h3, h4⟩
  · refine ⟨?_, ?_, ?_, ?_, ?_, ?_, ?_, ?_⟩ <;>
      simp [encodeIntent, extractBooking, getParam, getParam?, dictGetD, dictGet?,
        truthyId, hid, hn0, h1, h2, h3, h4, hamount, List.find?]
  · refine ⟨?_, ?_, ?_, ?_, ?_, ?_, ?_, ?_⟩ <;>
      simp [encodeIntent, extractBooking, getParam, getParam?, dictGetD, dictGet?,
        truthyId, hid, h1, h2, h3, h4, hamount, List.find?]

/-- Witness for C7: a concrete new-traveler intent with a whole-number
amount is a strict variant and round-trips through encode and decode. -/
theorem claim_C7_witness :
    strictVariantIntent intentC7w
      ∧ intentC7w.payment_amount.den = 1
      ∧ rendersIntent (extractBooking (encodeIntent intentC7w)) intentC7w := by
  have hs : strictVariantIntent intentC7w :=
    Or.inr ⟨rfl, by decide, by decide, by decide, by decide⟩
  exact ⟨hs, by decide, claim_C7_amended intentC7w hs (by decide)⟩

/-- countQ is countChar at the question mark. -/
theorem countQ_eq_countChar (l : List Char) : countQ l = countChar l '?' := rfl

/-- countQ distributes over append. -/
theorem countQ_append (a b : List Char) : countQ (a ++ b) = countQ a + countQ b := by
  simp [countQ, countChar, List.countP_append]

/-- countQ on a cons. -/
theorem countQ_cons (c : Char) (l : List Char) :
    countQ (c :: l) = countQ l + (if c = '?' then 1 else 0) := by
  by_cases hc : c = '?' <;> simp [countQ, countChar, List.countP_cons, hc]

/-- Replacing every question mark leaves none. -/
theorem countQ_replQ (l : List Char) : countQ (replQ l) = 0 := by
  rw [countQ, countChar, List.countP_eq_zero]
  intro a ha
  rw [replQ, List.mem_map] at ha
  obtain ⟨c, hc, hfc⟩ := ha
  subst hfc
  by_cases h : c = '?' <;> simp [h]

/-- replQ is the identity on question-mark-free lists. -/
theorem replQ_of_countQ_zero (l : List Char) (h : countQ l = 0) : replQ l = l := by
  induction l with
  | nil => rfl
  | cons c cs ih =>
    rw [countQ_cons] at h
    by_cases hc : c = '?'
    · rw [if_pos hc] at h; omega
    · rw [if_neg hc] at h
      simp only [Nat.add_zero] at h
      simp [replQ] at ih ⊢
      exact ⟨by simp [hc], ih h⟩

/-- qfix is the identity on question-mark-free lists. -/
theorem qfix_of_countQ_zero (l : List Char) (h : countQ l = 0) : qfix l = l := by
  induction l with
  | nil => rfl
  | cons c cs ih =>
    rw [countQ_cons] at h
    by_cases hc : c = '?'
    · rw [if_pos hc] at h; omega
    · rw [if_neg hc] at h
      simp only [Nat.add_zero] at h
      simp [qfix, hc]
      exact ih h

/-- qfix passes over a question-mark-free prefix. -/
theorem qfix_append_zero (a l : List Char) (h : countQ a = 0) :
    qfix (a ++ l) = a ++ qfix l := by
  induction a with
  | nil => simp
  | cons c cs ih =>
    rw [countQ_cons] at h
    by_cases hc : c = '?'
    · rw [if_pos hc] at h; omega
    · rw [if_neg hc] at h
      simp only [Nat.add_zero] at h
      simp [qfix, hc]
      exact ih h

/-- qfix leaves exactly one question mark when the input has any. -/
theorem countQ_qfix (l : List Char) : countQ (qfix l) = min (countQ l) 1 := by
  induction l with
  | nil => rfl
  | cons c cs ih =>
    by_cases hc : c = '?'
    · simp [qfix, hc, countQ_cons, countQ_replQ]
    · simp [qfix, hc, countQ_cons, ih]

/-- qfix is idempotent. -/
theorem qfix_idem (l : List Char) : qfix (qfix l) = qfix l := by
  induction l with
  | nil => rfl
  | cons c cs ih =>
    by_cases hc : c = '?'
    · simp [qfix, hc]
      exact replQ_of_countQ_zero _ (countQ_replQ cs)
    · simp [qfix, hc]
      exact ih

/-- A failed find means the character does not occur. -/
theorem pyFind_none (l : List Char) (t : Char) (h : pyFind l t = none) :
    countChar l t = 0 := by
  induction l with
  | nil => rfl
  | cons c cs ih =>
    by_cases hc : c = t
    · simp [pyFind, hc] at h
    · rw [pyFind.eq_2, if_neg hc] at h
      cases hfind : pyFind cs t with
      | some m => rw [hfind] at h; simp at h
      | none =>
        rw [countChar, List.countP_cons]
        simp only [hc, decide_False, if_false, Nat.add_zero]
        simpa [countChar] using ih hfind

/-- A successful find decomposes the list at the first occurrence. -/
theorem pyFind_some_decomp (l : List Char) (t : Char) (i : Nat)
    (h : pyFind l t = some i) :
    ∃ a b, l = a ++ t :: b ∧ a.length = i ∧ countChar a t = 0 := by
  induction l generalizing i with
  | nil => simp [pyFind] at h
  | cons c cs ih =>
    by_cases hc : c = t
    · subst hc
      rw [pyFind.eq_2, if_pos rfl] at h
      injection h with h0
      subst h0
      exact ⟨[], cs, rfl, rfl, rfl⟩
    · rw [pyFind.eq_2, if_neg hc] at h
      rcases hfind : pyFind cs t with _ | m
      all_goals rw [hfind] at h
      · simp at h
      have hmi : m + 1 = i := by simpa using h
      obtain ⟨a, b, hab, hlen, hcnt⟩ := ih m hfind
      refine ⟨c :: a, b, by simp [hab], by simp [List.length_cons, hlen]; omega, ?_⟩
      rw [countChar, List.countP_cons]
      simp only [hc, decide_False, if_false, Nat.add_zero]
      simpa [countChar] using hcnt

/-- Occurrence implies a successful find. -/
theorem pyFind_of_countChar_ne_zero (l : List Char) (t : Char)
    (h : countChar l t ≠ 0) : ∃ i, pyFind l t = some i := by
  cases hf : pyFind l t with
  | some i => exact ⟨i, rfl⟩
  | none => exact absurd (pyFind_none l t hf) h

/-- Dropping past the head of the decomposition point. -/
theorem drop_len_succ_append (a : List Char) (x : Char) (b : List Char) :
    (a ++ x :: b).drop (a.length + 1) = b := by
  induction a with
  | nil => simp
  | cons c cs ih =>
    rw [List.cons_append, List.length_cons, List.drop_succ_cons]
    exact ih

/-- replaceAt at the head. -/
theorem replaceAt_zero_cons (x : Char) (r : List Char) (c : Char) :
    replaceAt (x :: r) 0 c = c :: r := by
  simp [replaceAt]

/-- replaceAt under a cons. -/
theorem replaceAt_cons_succ (x : Char) (r : List Char) (k : Nat) (c : Char) :
    replaceAt (x :: r) (k + 1) c = x :: replaceAt r k c := by
  simp [replaceAt]

/-- replaceAt past an untouched prefix. -/
theorem replaceAt_append_left (a r : List Char) (k : Nat) (c : Char) :
    replaceAt (a ++ r) (a.length + k) c = a ++ replaceAt r k c := by
  induction a with
  | nil => simp
  | cons x xs ih =>
    have harith : (x :: xs).length + k = (xs.length + k) + 1 := by
      simp [List.length_cons]; omega
    rw [List.cons_append, harith, replaceAt_cons_succ, ih, List.cons_append]

/-- qfix at the first question mark of a decomposed list. -/
theorem qfix_decomp (a b : List Char) (ha : countQ a = 0) :
    qfix (a ++ '?' :: b) = a ++ '?' :: replQ b := by
  rw [qfix_append_zero a _ ha]
  simp [qfix]

/-- qfix with at most one question mark is the identity. -/
theorem qfix_of_le_one (l : List Char) (h : countQ l ≤ 1) : qfix l = l := by
  cases hc : countQ l with
  | zero => exact qfix_of_countQ_zero l hc
  | succ n =>
    have hn : n = 0 := by omega
    subst hn
    obtain ⟨i, hi⟩ := pyFind_of_countChar_ne_zero l '?'
      (by rw [← countQ_eq_countChar, hc]; omega)
    obtain ⟨a, b, hab, hlen, hcnt⟩ := pyFind_some_decomp l '?' i hi
    subst hab
    have ha : countQ a = 0 := by rw [countQ_eq_countChar]; exact hcnt
    have hb : countQ b = 0 := by
      rw [countQ_append, countQ_cons] at hc
      simp at hc
      omega
    rw [qfix_decomp a b ha, replQ_of_countQ_zero b hb]

/-- replQ distributes over append. -/
theorem replQ_append (a b : List Char) : replQ (a ++ b) = replQ a ++ replQ b := by
  simp [replQ]

/-- replQ turns a leading question mark into an ampersand. -/
theorem replQ_cons_q (d : List Char) : replQ ('?' :: d) = '&' :: replQ d := by
  simp [replQ]

/-- replQ keeps a leading ampersand. -/
theorem replQ_cons_amp (d : List Char) : replQ ('&' :: d) = '&' :: replQ d := by
  simp [replQ]

/-- The Python fix loop equals the specification normal form: it keeps the
first question mark and replaces every later one with an ampersand. -/
theorem fixChars_eq_qfix (l : List Char) : fixChars l = qfix l := by
  generalize hn : countQ l = n
  induction n using Nat.strong_induction_on generalizing l with
  | _ n ih =>
    rw [fixChars]
    split
    · rename_i hle1
      exact (qfix_of_le_one l hle1).symm
    · rename_i hgt1
      split
      · rename_i hnone
        have h0 : countQ l = 0 := by
          rw [countQ_eq_countChar]; exact pyFind_none l '?' hnone
        exact absurd h0 (by omega)
      · rename_i i hi
        obtain ⟨a, b, hab, hlen, hcnt⟩ := pyFind_some_decomp l '?' i hi
        have ha : countQ a = 0 := by rw [countQ_eq_countChar]; exact hcnt
        have hdrop : l.drop (i + 1) = b := by
          rw [hab, ← hlen]; exact drop_len_succ_append a '?' b
        split
        · rename_i hnone2
          rw [hdrop] at hnone2
          have hb : countQ b = 0 := by
            rw [countQ_eq_countChar]; exact pyFind_none b '?' hnone2
          have hle : countQ l ≤ 1 := by
            rw [hab, countQ_append, countQ_cons]
            simp [ha, hb]
          exact absurd hle hgt1
        · rename_i j hj
          rw [hdrop] at hj
          obtain ⟨c, d, hcd, hclen, hccnt⟩ := pyFind_some_decomp b '?' j hj
          have hc0 : countQ c = 0 := by rw [countQ_eq_countChar]; exact hccnt
          have hfixed : replaceAt l (i + 1 + j) '&' = a ++ '?' :: (c ++ '&' :: d) := by
            rw [hab, hcd]
            have h1 : i + 1 + j = a.length + (1 + j) := by omega
            rw [h1, replaceAt_append_left]
            have h2 : (1 : Nat) + j = j + 1 := by omega
            rw [h2, replaceAt_cons_succ]
            have h3 : j = c.length + 0 := by omega
            rw [h3, replaceAt_append_left, replaceAt_zero_cons]
          have hqfixl : qfix l = a ++ '?' :: (c ++ '&' :: replQ d) := by
            rw [hab, hcd, qfix_decomp a _ ha, replQ_append,
              replQ_of_countQ_zero c hc0, replQ_cons_q]
          have hcount : countQ l = countQ d + 2 := by
            rw [hab, hcd, countQ_append, countQ_cons, countQ_append, countQ_cons]
            simp [ha, hc0]
          have hcfixed : countQ (a ++ '?' :: (c ++ '&' :: d)) = countQ d + 1 := by
            rw [countQ_append, countQ_cons, countQ_append, countQ_cons]
            simp [ha, hc0]
          split
          · rename_i hgt2
            rw [hfixed]
            rw [ih (countQ d + 1) (by omega) (a ++ '?' :: (c ++ '&' :: d)) hcfixed]
            rw [hqfixl, qfix_decomp a _ ha, replQ_append,
              replQ_of_countQ_zero c hc0, replQ_cons_amp]
          · rename_i hle2
            have hd0 : countQ d = 0 := by omega
            rw [hfixed, hqfixl, replQ_of_countQ_zero d hd0]

/-- C8: the URL normalizer returns null and empty inputs unchanged, equals
the leave-first-replace-rest normal form on every string, returns inputs
with at most one question mark unchanged, yields exactly one question
mark whenever the input has more than one, and is idempotent. -/
theorem claim_C8_normalize :
    fix_esewa_callback_url none = none
    ∧ (∀ s : String, fix_esewa_callback_url (some s) = some (String.mk (qfix s.data)))
    ∧ (∀ s : String, countQ s.data ≤ 1 → fix_esewa_callback_url (some s) = some s)
    ∧ (∀ s t : String, 1 < countQ s.data →
        fix_esewa_callback_url (some s) = some t → countQ t.data = 1)
    ∧ (∀ u : Option String,
        fix_esewa_callback_url (fix_esewa_callback_url u) = fix_esewa_callback_url u) := by
  have hchar : ∀ s : String,
      fix_esewa_callback_url (some s) = some (String.mk (qfix s.data)) := by
    intro s
    by_cases hs : s = ""
    · subst hs
      rfl
    · simp [fix_esewa_callback_url, hs, fixChars_eq_qfix]
  have hle : ∀ s : String, countQ s.data ≤ 1 →
      fix_esewa_callback_url (some s) = some s := by
    intro s h
    rw [hchar s, qfix_of_le_one s.data h]
  refine ⟨rfl, hchar, hle, ?_, ?_⟩
  · intro s t h1 heq
    rw [hchar s] at heq
    injection heq with heq2
    rw [← heq2]
    show countQ (qfix s.data) = 1
    rw [countQ_qfix]
    omega
  · intro u
    cases u with
    | none => rfl
    | some s =>
      rw [hchar s, hchar (String.mk (qfix s.data))]
      show some (String.mk (qfix (qfix s.data))) = some (String.mk (qfix s.data))
      rw [qfix_idem]

/-- Witness for C8: a one-question-mark URL is returned unchanged, and a
two-question-mark URL is normalized to exactly one question mark. -/
theorem claim_C8_witness :
    (countQ ("ab?c".data) ≤ 1 ∧ fix_esewa_callback_url (some "ab?c") = some "ab?c")
    ∧ (1 < countQ ("x?a?b".data)
       ∧ fix_esewa_callback_url (some "x?a?b") = some "x?a&b"
       ∧ countQ ("x?a&b".data) = 1) := by
  have hfix : fix_esewa_callback_url (some "x?a?b") = some "x?a&b" := by
    rw [claim_C8_normalize.2.1 "x?a?b"]
    decide
  refine ⟨⟨by decide, claim_C8_normalize.2.2.1 "ab?c" (by decide)⟩,
    by decide, hfix,
    claim_C8_normalize.2.2.2.1 "x?a?b" "x?a&b" (by decide) hfix⟩
